import Mathlib

/-!
# Verification of the dbcooper frontend database-access layer

This file gives a shallow embedding, in Lean 4, of the parts of the
dbcooper TypeScript frontend that implement the unified database access
layer and its UI handlers:

* `src/lib/tauri.ts` — the `api.database` and `api.pool` write wrappers,
  including the raw-SQL whitelist gate applied before any `invoke` call;
* `src/pages/ConnectionDetails.tsx` — the row save/delete handlers, the
  query runner, table-data fetching/pagination and the Redis TTL display;
* `src/components/ConnectionStatus.tsx` — the periodic health-check timer;
* `RowEditSheet` — change detection and the construction of the `updates`
  object handed to `onSave`.

JavaScript values that can appear in a row are modelled by `JsonValue`
(numbers as integers; no claim below depends on float semantics).  A JS
property access that may yield `undefined` is modelled as `Option JsonValue`
with `none` standing for `undefined`.  Each `invoke(cmd, args)` performed by
an API wrapper is reified as a `NetworkCall` value, and fallible wrappers
(those that can `throw` before invoking) return `Except String NetworkCall`.
The backend process is modelled as an oracle function supplied to the UI
handlers; the effects a handler performs (toasts, network calls) are
collected in an explicit list.
-/

/-- A JavaScript/JSON value as it appears in row data.  `null` is the JSON
null; an absent key (JS `undefined`) is modelled as `Option.none` at use
sites. -/
inductive JsonValue where
  | str : String → JsonValue
  | num : Int → JsonValue
  | bool : Bool → JsonValue
  | null : JsonValue
deriving DecidableEq, Repr

/-- A `{column, value, isRawSql}` entry of the `values`/`updates` array
passed to the write wrappers in `src/lib/tauri.ts`. -/
structure RawSqlEntry where
  column : String
  value : JsonValue
  isRawSql : Bool
deriving DecidableEq, Repr

/-- A row, or a `Record<string, unknown>` object: an association list of
keys to values.  Lookup of an absent key yields `none` (JS `undefined`). -/
abbrev Row : Type := List (String × JsonValue)

/-- JS property access `obj[key]` on a record: first matching key, or
`undefined` (`none`). -/
def lookupRow (r : Row) (k : String) : Option JsonValue :=
  (r.find? (fun kv => kv.1 == k)).map (fun kv => kv.2)

/-- The `updates` argument of `api.database.updateTableRow`, which accepts
either a plain `Record<string, unknown>` or an array of tagged
`{column, value, isRawSql}` entries. -/
inductive Updates where
  | record : Row → Updates
  | array : List RawSqlEntry → Updates

/-- Arguments of the `unified_get_table_data` invoke issued by
`api.database.getTableData`. -/
structure GetTableDataArgs where
  schema : String
  table : String
  page : Nat
  limit : Nat
  filter : Option String
deriving DecidableEq, Repr

/-- Arguments of the `update_table_row` / `update_table_row_with_raw_sql`
invokes. -/
structure UpdateRowArgs where
  schema : String
  table : String
  primaryKeyColumns : List String
  primaryKeyValues : List (Option JsonValue)
  updatesRecord : Option Row
  updatesArray : Option (List RawSqlEntry)
deriving DecidableEq

/-- Arguments of the `delete_table_row` invoke. -/
structure DeleteRowArgs where
  schema : String
  table : String
  primaryKeyColumns : List String
  primaryKeyValues : List (Option JsonValue)
deriving DecidableEq

/-- Arguments of the `insert_table_row` invoke. -/
structure InsertRowArgs where
  schema : String
  table : String
  values : List RawSqlEntry
deriving DecidableEq, Repr

/-- Arguments of the `pool_insert_table_row` invoke. -/
structure PoolInsertRowArgs where
  uuid : String
  schema : String
  table : String
  values : List RawSqlEntry
deriving DecidableEq, Repr

/-- Arguments of the `pool_update_table_row` invoke. -/
structure PoolUpdateRowArgs where
  uuid : String
  schema : String
  table : String
  primaryKeyColumns : List String
  primaryKeyValues : List (Option JsonValue)
  updates : List RawSqlEntry
deriving DecidableEq, Repr

/-- One `invoke(command, args)` call to the Tauri backend, reified. -/
inductive NetworkCall where
  | insertTableRowCall : InsertRowArgs → NetworkCall
  | updateTableRowCall : UpdateRowArgs → NetworkCall
  | deleteTableRowCall : DeleteRowArgs → NetworkCall
  | executeQueryCall : String → NetworkCall
  | getTableDataCall : GetTableDataArgs → NetworkCall
  | poolInsertTableRowCall : PoolInsertRowArgs → NetworkCall
  | poolUpdateTableRowCall : PoolUpdateRowArgs → NetworkCall
  | poolHealthCheckCall : String → NetworkCall
  | poolConnectCall : String → NetworkCall
deriving DecidableEq

/-- The raw-SQL validation loop shared by `api.database.insertTableRow` and
the array branch of `api.database.updateTableRow`
(`src/lib/tauri.ts`): for each entry, if `isRawSql` is set and the value is
a string, the whitelist predicate `isSqlFunction` must accept it, otherwise
an `Error` is thrown.  Non-string values and untagged entries are skipped.
The whitelist predicate itself lives in the (absent) module
`src/lib/sqlFunctions.ts`, so it is taken here as a parameter. -/
def validateRawSqlEntries (isSqlFunction : String → Bool) :
    List RawSqlEntry → Except String Unit
  | [] => Except.ok ()
  | e :: rest =>
    if e.isRawSql then
      match e.value with
      | JsonValue.str s =>
        if isSqlFunction s then validateRawSqlEntries isSqlFunction rest
        else Except.error ("Invalid raw SQL value: \"" ++ s ++
          "\". Only whitelisted SQL functions are allowed for security.")
      | _ => validateRawSqlEntries isSqlFunction rest
    else validateRawSqlEntries isSqlFunction rest

/-- `api.database.insertTableRow` (`src/lib/tauri.ts` lines 442–476):
validates every raw-SQL-flagged string value against the whitelist, then
issues exactly one `insert_table_row` invoke; a failing entry throws before
the invoke. -/
def insertTableRow (isSqlFunction : String → Bool) (schema table : String)
    (values : List RawSqlEntry) : Except String NetworkCall :=
  match validateRawSqlEntries isSqlFunction values with
  | Except.error m => Except.error m
  | Except.ok _ =>
    Except.ok (NetworkCall.insertTableRowCall
      { schema := schema, table := table,
        values := values.map (fun v =>
          { column := v.column, value := v.value, isRawSql := v.isRawSql }) })

/-- `api.database.updateTableRow` (`src/lib/tauri.ts` lines 356–418): the
array branch validates raw-SQL entries and issues
`update_table_row_with_raw_sql`; the record branch issues
`update_table_row` unchecked. -/
def updateTableRow (isSqlFunction : String → Bool) (schema table : String)
    (primaryKeyColumns : List String)
    (primaryKeyValues : List (Option JsonValue))
    (updates : Updates) : Except String NetworkCall :=
  match updates with
  | Updates.array us =>
    match validateRawSqlEntries isSqlFunction us with
    | Except.error m => Except.error m
    | Except.ok _ =>
      Except.ok (NetworkCall.updateTableRowCall
        { schema := schema, table := table,
          primaryKeyColumns := primaryKeyColumns,
          primaryKeyValues := primaryKeyValues,
          updatesRecord := none,
          updatesArray := some (us.map (fun u =>
            { column := u.column, value := u.value, isRawSql := u.isRawSql })) })
  | Updates.record r =>
    Except.ok (NetworkCall.updateTableRowCall
      { schema := schema, table := table,
        primaryKeyColumns := primaryKeyColumns,
        primaryKeyValues := primaryKeyValues,
        updatesRecord := some r, updatesArray := none })

/-- `api.database.deleteTableRow` (`src/lib/tauri.ts`): a single
`delete_table_row` invoke, no validation. -/
def deleteTableRow (schema table : String) (primaryKeyColumns : List String)
    (primaryKeyValues : List (Option JsonValue)) : NetworkCall :=
  NetworkCall.deleteTableRowCall
    { schema := schema, table := table,
      primaryKeyColumns := primaryKeyColumns,
      primaryKeyValues := primaryKeyValues }

/-- `api.pool.insertTableRow` (`src/lib/tauri.ts` lines 691–703): forwards
its arguments directly to the `pool_insert_table_row` command with no
raw-SQL validation. -/
def poolInsertTableRow (uuid schema table : String)
    (values : List RawSqlEntry) : NetworkCall :=
  NetworkCall.poolInsertTableRowCall
    { uuid := uuid, schema := schema, table := table, values := values }

/-- `api.pool.updateTableRow` (`src/lib/tauri.ts` lines 659–674): forwards
its arguments directly to the `pool_update_table_row` command with no
raw-SQL validation. -/
def poolUpdateTableRow (uuid schema table : String)
    (primaryKeyColumns : List String)
    (primaryKeyValues : List (Option JsonValue))
    (updates : List RawSqlEntry) : NetworkCall :=
  NetworkCall.poolUpdateTableRowCall
    { uuid := uuid, schema := schema, table := table,
      primaryKeyColumns := primaryKeyColumns,
      primaryKeyValues := primaryKeyValues, updates := updates }

/-- Modelled from the spec: the Raw-SQL Validator of §4.3, implemented in
the repository by the module `src/lib/sqlFunctions.ts` (`isSqlFunction`),
which is not present under `src/`.  Per the spec it is a pure, case-sensitive
match against "a fixed, small allow-list of side-effect-free SQL
functions/expressions (e.g. timestamp/UUID generators)". -/
def isSqlFunctionSpec (s : String) : Bool :=
  s == "NOW()" || s == "CURRENT_TIMESTAMP" || s == "CURRENT_DATE" ||
  s == "CURRENT_TIME" || s == "gen_random_uuid()" || s == "uuid_generate_v4()"

/-- The network calls issued by a fallible write wrapper: none when it
throws, exactly the returned call when it succeeds. -/
def invokesOf : Except String NetworkCall → List NetworkCall
  | Except.error _ => []
  | Except.ok c => [c]

/-- The result shape of `unified_execute_query` / write commands
(`QueryResult` in `src/lib/tauri.ts`). -/
structure QueryResult where
  data : List Row
  row_count : Nat
  error : Option String
  time_taken_ms : Option Nat

/-- The result shape of `unified_get_table_data`
(`TableDataResponse` in `src/lib/tauri.ts`). -/
structure TableDataResponse where
  data : List Row
  total : Nat
  page : Nat
  limit : Nat
deriving DecidableEq

/-- A column descriptor (`TableColumn` in `src/types/tabTypes.ts`). -/
structure TableColumn where
  name : String
  colType : String
  nullable : Bool
  defaultValue : Option String
  primary_key : Bool
deriving DecidableEq, Repr

/-- The state of a table-data tab (`TableDataTab` in
`src/types/tabTypes.ts`), restricted to the fields the handlers below
read or write. -/
structure TableDataTab where
  id : String
  tableName : String
  columns : List TableColumn
  data : Option TableDataResponse
  currentPage : Nat
  loading : Bool
  filterInput : String
  filter : String
deriving DecidableEq

/-- The state of a query tab (`QueryTab` in `src/types/tabTypes.ts`),
restricted to the fields `handleRunQuery` reads or writes. -/
structure QueryTab where
  id : String
  query : String
  results : Option (List Row)
  error : Option String
  success : Bool
  executionTime : Option Nat
  executing : Bool

/-- An observable effect performed by a `ConnectionDetails` handler. -/
inductive Effect where
  | network : NetworkCall → Effect
  | toastError : String → Effect
  | toastSuccess : String → Effect
  | closeSheet : Effect

/-- The network calls among a handler's effects. -/
def networkCallsOf : List Effect → List NetworkCall
  | [] => []
  | Effect.network c :: rest => c :: networkCallsOf rest
  | _ :: rest => networkCallsOf rest

/-- JS `String.prototype.trim`: strip leading and trailing whitespace
(modelled with `Char.isWhitespace`; no claim depends on the exact
whitespace alphabet).  Defined structurally over the character list so
that it evaluates by kernel reduction. -/
def jsTrim (s : String) : String :=
  String.mk
    (((s.data.dropWhile Char.isWhitespace).reverse.dropWhile
        Char.isWhitespace).reverse)

/-- JS destructuring `const [schema, tableName] = tab.tableName.split(".")`:
the first two fragments (`none` models `undefined` when absent). -/
def splitTableName (s : String) : Option String × Option String :=
  let parts := s.splitOn "."
  (parts.get? 0, parts.get? 1)

/-- JS `tab.filter || undefined`: the empty string is falsy. -/
def filterOrUndefined (s : String) : Option String :=
  if s = "" then none else some s

/-- Marker for the `connection` object loaded by `ConnectionDetails`; its
fields are irrelevant to the verified handlers, which only test it for
presence. -/
structure Connection where
  uuid : String

/-- `fetchTableData` (`src/pages/ConnectionDetails.tsx` lines 333–362):
issues `unified_get_table_data` for the tab's current page with a fixed
page size of 100 and the tab's filter (empty meaning absent), storing the
response — or clearing the data and toasting on failure.  The backend is
the oracle `backendData`. -/
def fetchTableData (backendData : GetTableDataArgs → Except String TableDataResponse)
    (connection : Option Connection) (tab : TableDataTab) :
    TableDataTab × List Effect :=
  match connection with
  | none => (tab, [])
  | some _ =>
    let parts := splitTableName tab.tableName
    let args : GetTableDataArgs :=
      { schema := parts.1.getD "", table := parts.2.getD "",
        page := tab.currentPage, limit := 100,
        filter := filterOrUndefined tab.filter }
    match backendData args with
    | Except.ok d =>
      ({ tab with data := some d, loading := false },
       [Effect.network (NetworkCall.getTableDataCall args)])
    | Except.error _ =>
      ({ tab with data := none, loading := false },
       [Effect.network (NetworkCall.getTableDataCall args),
        Effect.toastError "Failed to load table data"])

/-- `handleApplyFilter` (`src/pages/ConnectionDetails.tsx` lines 581–589):
stores the filter input as the active filter, resets the page to 1 and
refetches. -/
def handleApplyFilter (backendData : GetTableDataArgs → Except String TableDataResponse)
    (connection : Option Connection) (activeTab : Option TableDataTab) :
    Option TableDataTab × List Effect :=
  match activeTab with
  | none => (none, [])
  | some tab =>
    let tab1 := { tab with filter := tab.filterInput, currentPage := 1 }
    let res := fetchTableData backendData connection tab1
    (some res.1, res.2)

/-- `handleClearFilter` (`src/pages/ConnectionDetails.tsx` lines 591–600):
clears both filter fields, resets the page to 1 and refetches. -/
def handleClearFilter (backendData : GetTableDataArgs → Except String TableDataResponse)
    (connection : Option Connection) (activeTab : Option TableDataTab) :
    Option TableDataTab × List Effect :=
  match activeTab with
  | none => (none, [])
  | some tab =>
    let tab1 := { tab with filter := "", filterInput := "", currentPage := 1 }
    let res := fetchTableData backendData connection tab1
    (some res.1, res.2)

/-- `tableDataPageCount` (`src/pages/ConnectionDetails.tsx` lines 947–952):
`Math.ceil(total / limit)` of the last response, 0 when there is no
table-data tab or no data.  On naturals, `Math.ceil (t / l)` for `l > 0`
is `(t + l - 1) / l`. -/
def tableDataPageCount : Option TableDataTab → Nat
  | none => 0
  | some tab =>
    match tab.data with
    | none => 0
    | some d => (d.total + d.limit - 1) / d.limit

/-- `handleRunQuery` (`src/pages/ConnectionDetails.tsx` lines 648–691):
returns immediately when there is no query tab, no connection, or the
query text trims to empty; otherwise marks the tab executing, runs the
query through the backend oracle `backendExec` (an `Except.error` models a
rejected `invoke` promise, caught by the `catch` branch), and records the
outcome on the tab. -/
def handleRunQuery (backendExec : String → Except String QueryResult)
    (connection : Option Connection) (activeTab : Option QueryTab) :
    Option QueryTab × List Effect :=
  match activeTab, connection with
  | some tab, some _ =>
    if jsTrim tab.query = "" then (some tab, [])
    else
      let tab1 := { tab with
        executing := true
        error := none
        results := none
        success := false
        executionTime := none }
      match backendExec tab.query with
      | Except.ok result =>
        let executionTime := result.time_taken_ms.getD 0
        match result.error with
        | some e =>
          (some { tab1 with
             error := some e
             executionTime := some executionTime
             executing := false },
           [Effect.network (NetworkCall.executeQueryCall tab.query)])
        | none =>
          (some { tab1 with
             results := some result.data
             success := true
             executionTime := some executionTime
             executing := false },
           [Effect.network (NetworkCall.executeQueryCall tab.query)])
      | Except.error m =>
        (some { tab1 with
           error := some m
           executionTime := none
           executing := false },
         [Effect.network (NetworkCall.executeQueryCall tab.query)])
  | t, _ => (t, [])

/-- The primary-key column names derived from a tab's columns, as computed
at the top of `handleSaveRow` and `handleDeleteRow`. -/
def primaryKeyColumnsOf (columns : List TableColumn) : List String :=
  (columns.filter (fun col => col.primary_key)).map (fun col => col.name)

/-- `handleSaveRow` (`src/pages/ConnectionDetails.tsx` lines 778–833):
derives the primary-key columns from the tab, aborts with a toast when
there are none, and otherwise updates the row through
`api.database.updateTableRow` (record form) and refetches on success.
`backend` answers write invokes; `backendData` answers the refetch. -/
def handleSaveRow (isSqlFunction : String → Bool)
    (backend : NetworkCall → Except String QueryResult)
    (backendData : GetTableDataArgs → Except String TableDataResponse)
    (connection : Option Connection) (activeTab : Option TableDataTab)
    (editingRow : Option Row) (updates : Row) : List Effect :=
  match connection, activeTab, editingRow with
  | some _, some tab, some row =>
    let parts := splitTableName tab.tableName
    let primaryKeyColumns := primaryKeyColumnsOf tab.columns
    let primaryKeyValues := primaryKeyColumns.map (fun col => lookupRow row col)
    if primaryKeyColumns.length = 0 then
      [Effect.toastError "Cannot update row without primary key"]
    else
      match updateTableRow isSqlFunction (parts.1.getD "") (parts.2.getD "")
          primaryKeyColumns primaryKeyValues (Updates.record updates) with
      | Except.error _ => [Effect.toastError "Failed to update row"]
      | Except.ok call =>
        match backend call with
        | Except.error _ =>
          [Effect.network call, Effect.toastError "Failed to update row"]
        | Except.ok result =>
          match result.error with
          | some _ => [Effect.network call, Effect.toastError "Failed to update row"]
          | none =>
            Effect.network call :: Effect.toastSuccess "Row updated successfully" ::
              Effect.closeSheet :: (fetchTableData backendData connection tab).2
  | _, _, _ => []

/-- `handleDeleteRow` (`src/pages/ConnectionDetails.tsx` lines 835–886):
derives the primary-key columns from the tab, aborts with a toast when
there are none, and otherwise deletes the row through
`api.database.deleteTableRow` and refetches on success. -/
def handleDeleteRow (backend : NetworkCall → Except String QueryResult)
    (backendData : GetTableDataArgs → Except String TableDataResponse)
    (connection : Option Connection) (activeTab : Option TableDataTab)
    (editingRow : Option Row) : List Effect :=
  match connection, activeTab, editingRow with
  | some _, some tab, some row =>
    let parts := splitTableName tab.tableName
    let primaryKeyColumns := primaryKeyColumnsOf tab.columns
    let primaryKeyValues := primaryKeyColumns.map (fun col => lookupRow row col)
    if primaryKeyColumns.length = 0 then
      [Effect.toastError "Cannot delete row without primary key"]
    else
      let call := deleteTableRow (parts.1.getD "") (parts.2.getD "")
        primaryKeyColumns primaryKeyValues
      match backend call with
      | Except.error _ =>
        [Effect.network call, Effect.toastError "Failed to delete row"]
      | Except.ok result =>
        match result.error with
        | some _ => [Effect.network call, Effect.toastError "Failed to delete row"]
        | none =>
          Effect.network call :: Effect.toastSuccess "Row deleted successfully" ::
            Effect.closeSheet :: (fetchTableData backendData connection tab).2
  | _, _, _ => []

/-- The Redis key-details TTL rendering
(`src/pages/ConnectionDetails.tsx` lines 1925–1932):
`redisKeyDetails.ttl === -1 ? "No expiration" : `${redisKeyDetails.ttl}s`. -/
def renderTtl (ttl : Int) : String :=
  if ttl = -1 then "No expiration" else toString ttl ++ "s"

/-- Modelled from the spec: the key-value adapter's `getKeyDetails`, part of
the Rust backend core which is not present under `src/`.  Per §4.2 a `ttl`
of `null`/absent "means no expiration and must be rendered as `-1` in
`getKeyDetails`"; a present TTL is reported as-is. -/
def getKeyDetailsTtl : Option Nat → Int
  | none => -1
  | some t => (t : Int)

/-- A connection status as tracked by `ConnectionStatus`
(`src/components/ConnectionStatus.tsx`). -/
inductive Status where
  | connected
  | disconnected
  | connecting
  | reconnecting
deriving DecidableEq, Repr

/-- The interval period, in milliseconds, passed as the literal second
argument of `setInterval` in the health-check effect of `ConnectionStatus`
(`src/components/ConnectionStatus.tsx` line 78 and line 240).  It is a
source literal, not derived from any prop or setting. -/
def healthCheckIntervalMs : Nat := 30000

/-- The mutable state of the `ConnectionStatus` component that the
health-check logic reads: the tracked `status` and the `isMounted` ref. -/
structure CSState where
  status : Status
  mounted : Bool
deriving DecidableEq, Repr

/-- The events that drive the `ConnectionStatus` component:
a timer tick of the health-check interval; resolution of a pending
health-check promise with failure; entry into `connect(isInitial)`
(which sets `connecting`/`reconnecting`); resolution of the
`pool_connect` promise with the status it returned, or its rejection;
and unmount. -/
inductive CSEvent where
  | tick
  | healthCheckFailed
  | connectStart : Bool → CSEvent
  | connectResult : Status → CSEvent
  | connectFailed
  | unmount
deriving DecidableEq, Repr

/-- The guard of the `setInterval` callback
(`src/components/ConnectionStatus.tsx` lines 70–77):
`if (status === "connected" && isMounted.current)` issue
`api.pool.healthCheck`. -/
def tickIssuesHealthCheck (s : CSState) : Bool :=
  s.status == Status.connected && s.mounted

/-- One step of the `ConnectionStatus` component: the successor state and
whether a `pool_health_check` invoke was issued by this event.  Each branch
transcribes the corresponding handler in
`src/components/ConnectionStatus.tsx` (first variant): the interval
callback, the health-check `catch`, `connect`'s entry, resolution and
`catch`, and the unmount cleanup.  Every state write is guarded by
`isMounted.current`. -/
def csStep (s : CSState) : CSEvent → CSState × Bool
  | CSEvent.tick => (s, tickIssuesHealthCheck s)
  | CSEvent.healthCheckFailed =>
    (if s.mounted then { s with status := Status.disconnected } else s, false)
  | CSEvent.connectStart isInitial =>
    (if s.mounted then
       { s with status := if isInitial then Status.connecting else Status.reconnecting }
     else s, false)
  | CSEvent.connectResult st =>
    (if s.mounted then { s with status := st } else s, false)
  | CSEvent.connectFailed =>
    (if s.mounted then { s with status := Status.disconnected } else s, false)
  | CSEvent.unmount => ({ s with mounted := false }, false)

/-- Run a sequence of events, counting how many health-check invokes are
issued. -/
def csRun (s : CSState) : List CSEvent → CSState × Nat
  | [] => (s, 0)
  | e :: es =>
    let step := csStep s e
    let rest := csRun step.1 es
    (rest.1, (if step.2 then 1 else 0) + rest.2)

/-- Whether a column name is one of the primary-key columns, as tested by
`primaryKeyColumns.some((pk) => pk.name === key)` in `RowEditSheet`. -/
def isPrimaryKeyName (columns : List TableColumn) (k : String) : Bool :=
  (columns.filter (fun col => col.primary_key)).any (fun pk => pk.name == k)

/-- `JSON.stringify` on the values that can appear in a row, as used by
`RowEditSheet` for change comparison. -/
def jsonStringify : JsonValue → String
  | JsonValue.str s => "\"" ++ s ++ "\""
  | JsonValue.num n => toString n
  | JsonValue.bool true => "true"
  | JsonValue.bool false => "false"
  | JsonValue.null => "null"

/-- `JSON.stringify` applied to a possibly-undefined value:
`JSON.stringify(undefined)` is `undefined` (`none`). -/
def jsonStringifyOpt : Option JsonValue → Option String :=
  Option.map jsonStringify

/-- The per-key comparison inside `RowEditSheet.hasChanges`
(`part_008` lines 79–84): both `null` → unchanged; exactly one side
`null` → strict inequality; otherwise compare `JSON.stringify` images. -/
def nullAwareChanged (original edited : Option JsonValue) : Bool :=
  if original == some JsonValue.null && edited == some JsonValue.null then false
  else if original == some JsonValue.null || edited == some JsonValue.null then
    !(original == edited)
  else !(jsonStringifyOpt original == jsonStringifyOpt edited)

/-- `RowEditSheet.hasChanges` (`part_008` lines 73–86): false when there is
no row; otherwise true iff some non-primary-key key of `editedValues`
differs from the row. -/
def hasChanges (row : Option Row) (editedValues : Row)
    (columns : List TableColumn) : Bool :=
  match row with
  | none => false
  | some r =>
    editedValues.any (fun kv =>
      if isPrimaryKeyName columns kv.1 then false
      else nullAwareChanged (lookupRow r kv.1) (some kv.2))

/-- `RowEditSheet.handleSave` (`part_008` lines 95–110): returns without
calling `onSave` when `hasChanges` is false; otherwise calls `onSave` with
the object of non-primary-key entries of `editedValues` whose
`JSON.stringify` image differs from the row's.  `some updates` models the
`onSave(updates)` call, `none` the early return. -/
def handleSave (row : Option Row) (editedValues : Row)
    (columns : List TableColumn) : Option Row :=
  if !hasChanges row editedValues columns then none
  else
    some (editedValues.filter (fun kv =>
      !isPrimaryKeyName columns kv.1 &&
      (match row with
       | some r =>
         !(jsonStringifyOpt (lookupRow r kv.1) == some (jsonStringify kv.2))
       | none => false)))

/-- An entry that the validation loop rejects: flagged raw-SQL with a string
value the whitelist refuses. -/
def badEntry (isSqlFunction : String → Bool) (e : RawSqlEntry) : Bool :=
  e.isRawSql &&
    (match e.value with
     | JsonValue.str s => !(isSqlFunction s)
     | _ => false)

theorem validateRawSqlEntries_ok_iff (isSqlFunction : String → Bool)
    (vs : List RawSqlEntry) :
    validateRawSqlEntries isSqlFunction vs = Except.ok () ↔
      vs.any (badEntry isSqlFunction) = false := by
  induction vs with
  | nil => simp [validateRawSqlEntries]
  | cons e rest ih =>
    by_cases hr : e.isRawSql
    · cases hv : e.value with
      | str s =>
        by_cases hf : isSqlFunction s
        · simp [validateRawSqlEntries, hr, hv, hf, ih, badEntry]
        · simp [validateRawSqlEntries, hr, hv, hf, badEntry]
      | num n => simp [validateRawSqlEntries, hr, hv, ih, badEntry]
      | bool b => simp [validateRawSqlEntries, hr, hv, ih, badEntry]
      | null => simp [validateRawSqlEntries, hr, hv, ih, badEntry]
    · simp [validateRawSqlEntries, hr, ih, badEntry]

theorem validateRawSqlEntries_error_iff (isSqlFunction : String → Bool)
    (vs : List RawSqlEntry) :
    (∃ m, validateRawSqlEntries isSqlFunction vs = Except.error m) ↔
      vs.any (badEntry isSqlFunction) = true := by
  constructor
  · intro ⟨m, hm⟩
    by_contra hb
    have : validateRawSqlEntries isSqlFunction vs = Except.ok () :=
      (validateRawSqlEntries_ok_iff isSqlFunction vs).mpr
        (Bool.eq_false_iff.mpr hb)
    rw [this] at hm
    exact Except.noConfusion hm
  · intro hb
    cases hres : validateRawSqlEntries isSqlFunction vs with
    | error m => exact ⟨m, rfl⟩
    | ok u =>
      cases u
      have := (validateRawSqlEntries_ok_iff isSqlFunction vs).mp hres
      rw [this] at hb
      exact Bool.noConfusion hb

theorem any_badEntry_iff (isSqlFunction : String → Bool)
    (vs : List RawSqlEntry) :
    vs.any (badEntry isSqlFunction) = true ↔
      ∃ e ∈ vs, e.isRawSql = true ∧
        ∃ s, e.value = JsonValue.str s ∧ isSqlFunction s = false := by
  rw [List.any_eq_true]
  constructor
  · intro ⟨e, he, hbad⟩
    refine ⟨e, he, ?_⟩
    unfold badEntry at hbad
    rw [Bool.and_eq_true] at hbad
    refine ⟨hbad.1, ?_⟩
    cases hv : e.value with
    | str s =>
      refine ⟨s, rfl, ?_⟩
      have := hbad.2
      rw [hv] at this
      simpa using this
    | num n => rw [hv] at hbad; simp at hbad
    | bool b => rw [hv] at hbad; simp at hbad
    | null => rw [hv] at hbad; simp at hbad
  · intro ⟨e, he, hraw, s, hval, hf⟩
    exact ⟨e, he, by simp [badEntry, hraw, hval, hf]⟩

theorem rawSqlEntry_map_eta (vs : List RawSqlEntry) :
    vs.map (fun v =>
      ({ column := v.column, value := v.value, isRawSql := v.isRawSql } :
        RawSqlEntry)) = vs := by
  induction vs with
  | nil => rfl
  | cons v rest ih => simp [ih]

/-- C1. For every `values` (insert) or array-shaped `updates` (update)
argument in which some entry has `isRawSql = true` and a string value the
whitelist predicate `isSqlFunction` rejects, `api.database.insertTableRow`
and `api.database.updateTableRow` throw before issuing any invoke, so no
network call is made; if every raw-SQL-flagged string entry passes the
whitelist, exactly one invoke of the corresponding write command is
issued. -/
theorem c1_database_write_raw_sql_gate
    (isSqlFunction : String → Bool) (schema table : String)
    (primaryKeyColumns : List String)
    (primaryKeyValues : List (Option JsonValue))
    (values : List RawSqlEntry) :
    ((∃ e ∈ values, e.isRawSql = true ∧
        ∃ s, e.value = JsonValue.str s ∧ isSqlFunction s = false) →
      invokesOf (insertTableRow isSqlFunction schema table values) = [] ∧
      invokesOf (updateTableRow isSqlFunction schema table
        primaryKeyColumns primaryKeyValues (Updates.array values)) = []) ∧
    ((∀ e ∈ values, e.isRawSql = true →
        ∀ s, e.value = JsonValue.str s → isSqlFunction s = true) →
      invokesOf (insertTableRow isSqlFunction schema table values) =
        [NetworkCall.insertTableRowCall
          { schema := schema, table := table, values := values }] ∧
      invokesOf (updateTableRow isSqlFunction schema table
          primaryKeyColumns primaryKeyValues (Updates.array values)) =
        [NetworkCall.updateTableRowCall
          { schema := schema, table := table,
            primaryKeyColumns := primaryKeyColumns,
            primaryKeyValues := primaryKeyValues,
            updatesRecord := none, updatesArray := some values }]) := by
  constructor
  · intro hbad
    have hany : values.any (badEntry isSqlFunction) = true :=
      (any_badEntry_iff isSqlFunction values).mpr hbad
    obtain ⟨m, hm⟩ :=
      (validateRawSqlEntries_error_iff isSqlFunction values).mpr hany
    constructor
    · simp [insertTableRow, hm, invokesOf]
    · simp [updateTableRow, hm, invokesOf]
  · intro hgood
    have hany : values.any (badEntry isSqlFunction) = false := by
      by_contra hb
      have hb' : values.any (badEntry isSqlFunction) = true := by
        revert hb
        cases values.any (badEntry isSqlFunction) <;> simp
      have := (any_badEntry_iff isSqlFunction values).mp hb'
      obtain ⟨e, he, hraw, s, hval, hf⟩ := this
      have := hgood e he hraw s hval
      rw [this] at hf
      exact Bool.noConfusion hf
    have hok : validateRawSqlEntries isSqlFunction values = Except.ok () :=
      (validateRawSqlEntries_ok_iff isSqlFunction values).mpr hany
    constructor
    · simp [insertTableRow, hok, invokesOf, rawSqlEntry_map_eta]
    · simp [updateTableRow, hok, invokesOf, rawSqlEntry_map_eta]

/-- C1 witness: a rejected entry yields no invoke, and an all-passing list
yields exactly one invoke, at concrete inputs. -/
theorem c1_database_write_raw_sql_gate_witness :
    invokesOf (insertTableRow isSqlFunctionSpec "public" "users"
      [{ column := "created_at", value := JsonValue.str "DROP TABLE x",
         isRawSql := true }]) = [] ∧
    invokesOf (insertTableRow isSqlFunctionSpec "public" "users"
        [{ column := "created_at", value := JsonValue.str "NOW()",
           isRawSql := true }]) =
      [NetworkCall.insertTableRowCall
        { schema := "public", table := "users",
          values := [{ column := "created_at", value := JsonValue.str "NOW()",
                       isRawSql := true }] }] := by
  constructor
  · exact ((c1_database_write_raw_sql_gate isSqlFunctionSpec "public" "users"
      [] [] _).1
      ⟨_, List.mem_singleton_self _, rfl, "DROP TABLE x", rfl, by decide⟩).1
  · refine ((c1_database_write_raw_sql_gate isSqlFunctionSpec "public" "users"
      [] [] _).2 ?_).1
    intro e he hraw s hval
    rw [List.mem_singleton] at he
    subst he
    injection hval with hs
    subst hs
    decide

/-- C2. Contrary to the claim, the pool write wrappers perform no raw-SQL
validation: `api.pool.insertTableRow` and `api.pool.updateTableRow`
forward a `{value: "DROP TABLE x", isRawSql: true}` entry straight to the
`pool_insert_table_row` / `pool_update_table_row` backend commands, even
though the Raw-SQL Validator rejects that value. -/
theorem c2_pool_write_forwards_unvalidated_raw_sql :
    isSqlFunctionSpec "DROP TABLE x" = false ∧
    poolInsertTableRow "uuid-1" "public" "users"
        [{ column := "name", value := JsonValue.str "DROP TABLE x",
           isRawSql := true }] =
      NetworkCall.poolInsertTableRowCall
        { uuid := "uuid-1", schema := "public", table := "users",
          values := [{ column := "name", value := JsonValue.str "DROP TABLE x",
                       isRawSql := true }] } ∧
    poolUpdateTableRow "uuid-1" "public" "users" ["id"]
        [some (JsonValue.num 1)]
        [{ column := "name", value := JsonValue.str "DROP TABLE x",
           isRawSql := true }] =
      NetworkCall.poolUpdateTableRowCall
        { uuid := "uuid-1", schema := "public", table := "users",
          primaryKeyColumns := ["id"],
          primaryKeyValues := [some (JsonValue.num 1)],
          updates := [{ column := "name", value := JsonValue.str "DROP TABLE x",
                        isRawSql := true }] } := by
  exact ⟨by decide, rfl, rfl⟩

/-- C9. The raw-SQL guard in `api.database.insertTableRow` and
`api.database.updateTableRow` applies only to entries whose value is a
string: when every raw-SQL-flagged entry has a non-string value, both
wrappers succeed and forward the entries unchanged, for every whitelist
predicate whatsoever. -/
theorem c9_non_string_raw_sql_skips_whitelist
    (schema table : String) (primaryKeyColumns : List String)
    (primaryKeyValues : List (Option JsonValue))
    (values : List RawSqlEntry)
    (h : ∀ e ∈ values, e.isRawSql = true → ∀ s, e.value ≠ JsonValue.str s) :
    ∀ isSqlFunction : String → Bool,
      insertTableRow isSqlFunction schema table values =
        Except.ok (NetworkCall.insertTableRowCall
          { schema := schema, table := table, values := values }) ∧
      updateTableRow isSqlFunction schema table
          primaryKeyColumns primaryKeyValues (Updates.array values) =
        Except.ok (NetworkCall.updateTableRowCall
          { schema := schema, table := table,
            primaryKeyColumns := primaryKeyColumns,
            primaryKeyValues := primaryKeyValues,
            updatesRecord := none, updatesArray := some values }) := by
  intro isSqlFunction
  have hany : values.any (badEntry isSqlFunction) = false := by
    by_contra hb
    have hb' : values.any (badEntry isSqlFunction) = true := by
      revert hb
      cases values.any (badEntry isSqlFunction) <;> simp
    have := (any_badEntry_iff isSqlFunction values).mp hb'
    obtain ⟨e, he, hraw, s, hval, _⟩ := this
    exact h e he hraw s hval
  have hok : validateRawSqlEntries isSqlFunction values = Except.ok () :=
    (validateRawSqlEntries_ok_iff isSqlFunction values).mpr hany
  constructor
  · simp [insertTableRow, hok, rawSqlEntry_map_eta]
  · simp [updateTableRow, hok, rawSqlEntry_map_eta]

/-- C9 witness: a numeric raw-SQL-flagged entry passes untouched even under
the empty whitelist. -/
theorem c9_non_string_raw_sql_skips_whitelist_witness :
    insertTableRow (fun _ => false) "public" "users"
        [{ column := "age", value := JsonValue.num 42, isRawSql := true }] =
      Except.ok (NetworkCall.insertTableRowCall
        { schema := "public", table := "users",
          values := [{ column := "age", value := JsonValue.num 42,
                       isRawSql := true }] }) := by
  exact ((c9_non_string_raw_sql_skips_whitelist "public" "users" [] []
    [{ column := "age", value := JsonValue.num 42, isRawSql := true }]
    (by intro e he hraw s; fin_cases he; simp)) (fun _ => false)).1

/-- C3. When the list of primary-key columns derived from the table's
columns is empty, `handleSaveRow` and `handleDeleteRow` report an error
toast and return before issuing any network call. -/
theorem c3_missing_primary_key_precondition
    (isSqlFunction : String → Bool)
    (backend : NetworkCall → Except String QueryResult)
    (backendData : GetTableDataArgs → Except String TableDataResponse)
    (connection : Connection) (tab : TableDataTab) (row : Row)
    (updates : Row)
    (h : primaryKeyColumnsOf tab.columns = []) :
    handleSaveRow isSqlFunction backend backendData (some connection)
        (some tab) (some row) updates =
      [Effect.toastError "Cannot update row without primary key"] ∧
    handleDeleteRow backend backendData (some connection)
        (some tab) (some row) =
      [Effect.toastError "Cannot delete row without primary key"] ∧
    networkCallsOf (handleSaveRow isSqlFunction backend backendData
      (some connection) (some tab) (some row) updates) = [] ∧
    networkCallsOf (handleDeleteRow backend backendData
      (some connection) (some tab) (some row)) = [] := by
  refine ⟨?_, ?_, ?_, ?_⟩ <;>
    simp [handleSaveRow, handleDeleteRow, h, networkCallsOf]

/-- C3 witness: a table whose columns carry no primary key aborts both
handlers with a toast and zero network calls. -/
theorem c3_missing_primary_key_precondition_witness :
    handleSaveRow (fun _ => true) (fun _ => Except.error "unreachable")
        (fun _ => Except.error "unreachable") (some { uuid := "u" })
        (some { id := "t1", tableName := "public.users",
                columns := [{ name := "name", colType := "text",
                              nullable := true, defaultValue := none,
                              primary_key := false }],
                data := none, currentPage := 1, loading := false,
                filterInput := "", filter := "" })
        (some [("name", JsonValue.str "a")]) [("name", JsonValue.str "b")] =
      [Effect.toastError "Cannot update row without primary key"] := by
  exact (c3_missing_primary_key_precondition (fun _ => true)
    (fun _ => Except.error "unreachable") (fun _ => Except.error "unreachable")
    { uuid := "u" }
    { id := "t1", tableName := "public.users",
      columns := [{ name := "name", colType := "text", nullable := true,
                    defaultValue := none, primary_key := false }],
      data := none, currentPage := 1, loading := false,
      filterInput := "", filter := "" }
    [("name", JsonValue.str "a")] [("name", JsonValue.str "b")]
    (by decide)).1

/-- C5. When `executeQuery` resolves with a populated `error` field,
`handleRunQuery` records the error and the execution time on the tab and
clears the executing flag, leaving the tab's query text unchanged; the
failure is data on the tab, not an exception. -/
theorem c5_query_error_surfaced_as_data
    (backendExec : String → Except String QueryResult)
    (connection : Connection) (tab : QueryTab) (r : QueryResult) (e : String)
    (hq : ¬ jsTrim tab.query = "")
    (hb : backendExec tab.query = Except.ok r)
    (he : r.error = some e) :
    (handleRunQuery backendExec (some connection) (some tab)).1 =
      some { tab with
        executing := false
        error := some e
        results := none
        success := false
        executionTime := some (r.time_taken_ms.getD 0) } ∧
    ((handleRunQuery backendExec (some connection) (some tab)).1.map
      (fun t => t.query)) = some tab.query ∧
    (handleRunQuery backendExec (some connection) (some tab)).2 =
      [Effect.network (NetworkCall.executeQueryCall tab.query)] := by
  refine ⟨?_, ?_, ?_⟩ <;> simp [handleRunQuery, hq, hb, he]

/-- C5 witness: a backend answering with an in-band error populates the
tab's error and timing fields at a concrete input. -/
theorem c5_query_error_surfaced_as_data_witness :
    (handleRunQuery
        (fun _ => Except.ok { data := [], row_count := 0,
                              error := some "division by zero",
                              time_taken_ms := some 7 })
        (some { uuid := "u" })
        (some { id := "q1", query := "SELECT 1/0", results := none,
                error := none, success := false, executionTime := none,
                executing := false })).1 =
      some { id := "q1", query := "SELECT 1/0", results := none,
             error := some "division by zero", success := false,
             executionTime := some 7, executing := false } := by
  have h := c5_query_error_surfaced_as_data
    (fun _ => Except.ok { data := [], row_count := 0,
                          error := some "division by zero",
                          time_taken_ms := some 7 })
    { uuid := "u" }
    { id := "q1", query := "SELECT 1/0", results := none, error := none,
      success := false, executionTime := none, executing := false }
    { data := [], row_count := 0, error := some "division by zero",
      time_taken_ms := some 7 }
    "division by zero" (by decide) rfl rfl
  exact h.1

/-- C6. A query tab whose text trims to empty causes `handleRunQuery` to
return with the tab unchanged and no network call, regardless of the
backend and of whether a connection is loaded. -/
theorem c6_blank_query_no_network
    (backendExec : String → Except String QueryResult)
    (connection : Option Connection) (tab : QueryTab)
    (h : jsTrim tab.query = "") :
    handleRunQuery backendExec connection (some tab) = (some tab, []) := by
  cases connection <;> simp [handleRunQuery, h]

/-- C6 witness: a whitespace-only query is a no-op at a concrete input. -/
theorem c6_blank_query_no_network_witness :
    handleRunQuery (fun _ => Except.error "unreachable")
        (some { uuid := "u" })
        (some { id := "q1", query := "   \n\t ", results := none,
                error := none, success := false, executionTime := none,
                executing := false }) =
      (some { id := "q1", query := "   \n\t ", results := none,
              error := none, success := false, executionTime := none,
              executing := false }, []) := by
  exact c6_blank_query_no_network (fun _ => Except.error "unreachable")
    (some { uuid := "u" })
    { id := "q1", query := "   \n\t ", results := none, error := none,
      success := false, executionTime := none, executing := false }
    (by decide)

theorem string_append_s_ne_noExpiration (x : String) :
    x ++ "s" ≠ "No expiration" := by
  intro h
  have h2 : (x ++ "s").data = ("No expiration").data := congrArg String.data h
  have h3 : x.data ++ ['s'] = ("No expiration").data := by
    simpa [String.data_append] using h2
  have h4 := congrArg List.getLast? h3
  simp [List.getLast?_concat] at h4

/-- C7. A key with no expiration is reported with TTL `-1` by
`getKeyDetails`, and the key-details view renders the TTL as
"No expiration" exactly when it equals `-1`, and as "&lt;ttl&gt;s"
otherwise. -/
theorem c7_ttl_rendering :
    getKeyDetailsTtl none = -1 ∧
    (∀ t : Nat, getKeyDetailsTtl (some t) = (t : Int)) ∧
    (∀ ttl : Int, renderTtl ttl = "No expiration" ↔ ttl = -1) ∧
    (∀ ttl : Int, ttl ≠ -1 → renderTtl ttl = toString ttl ++ "s") := by
  refine ⟨rfl, fun t => rfl, fun ttl => ?_, fun ttl h => ?_⟩
  · constructor
    · intro h
      by_contra hne
      rw [renderTtl, if_neg hne] at h
      exact string_append_s_ne_noExpiration (toString ttl) h
    · intro h
      rw [renderTtl, if_pos h]
  · rw [renderTtl, if_neg h]

/-- C7 witness: the two rendering branches at concrete TTLs, and the
missing-TTL representation. -/
theorem c7_ttl_rendering_witness :
    getKeyDetailsTtl none = -1 ∧
    renderTtl (-1) = "No expiration" ∧
    renderTtl 120 = toString (120 : Int) ++ "s" := by
  refine ⟨c7_ttl_rendering.1, ?_, ?_⟩
  · exact (c7_ttl_rendering.2.2.1 (-1)).mpr rfl
  · exact c7_ttl_rendering.2.2.2 120 (by decide)

/-- C8. Table-data pagination: the displayed page count is
`ceil(total / limit)` of the last response (stated through the Galois
characterization of ceiling division); every fetch requests the tab's
current page with a fixed page size of 100; and applying or clearing a
filter resets the requested page to 1 before fetching. -/
theorem c8_pagination :
    (∀ (tab : TableDataTab) (d : TableDataResponse),
       tab.data = some d → 0 < d.limit →
       ∀ n : Nat, tableDataPageCount (some tab) ≤ n ↔ d.total ≤ d.limit * n) ∧
    (∀ (backendData : GetTableDataArgs → Except String TableDataResponse)
       (connection : Connection) (tab : TableDataTab),
       ∃ args : GetTableDataArgs,
         networkCallsOf (fetchTableData backendData (some connection) tab).2 =
           [NetworkCall.getTableDataCall args] ∧
         args.limit = 100 ∧ args.page = tab.currentPage) ∧
    (∀ (backendData : GetTableDataArgs → Except String TableDataResponse)
       (connection : Connection) (tab : TableDataTab),
       ∃ (args : GetTableDataArgs) (tab' : TableDataTab),
         handleApplyFilter backendData (some connection) (some tab) =
           (some tab', (fetchTableData backendData (some connection)
             { tab with filter := tab.filterInput, currentPage := 1 }).2) ∧
         networkCallsOf (handleApplyFilter backendData (some connection)
             (some tab)).2 = [NetworkCall.getTableDataCall args] ∧
         args.page = 1 ∧ args.limit = 100 ∧ tab'.currentPage = 1) ∧
    (∀ (backendData : GetTableDataArgs → Except String TableDataResponse)
       (connection : Connection) (tab : TableDataTab),
       ∃ (args : GetTableDataArgs) (tab' : TableDataTab),
         handleClearFilter backendData (some connection) (some tab) =
           (some tab', (fetchTableData backendData (some connection)
             { tab with filter := "", filterInput := "", currentPage := 1 }).2) ∧
         networkCallsOf (handleClearFilter backendData (some connection)
             (some tab)).2 = [NetworkCall.getTableDataCall args] ∧
         args.page = 1 ∧ args.limit = 100 ∧ args.filter = none ∧
         tab'.currentPage = 1) := by
  refine ⟨?_, ?_, ?_, ?_⟩
  · intro tab d hd hlim n
    rw [tableDataPageCount, hd]
    rw [Nat.div_le_iff_le_mul_add_pred hlim]
    have h1 : 1 ≤ d.limit := hlim
    generalize d.limit * n = t
    omega
  · intro backendData connection tab
    refine ⟨{ schema := (splitTableName tab.tableName).1.getD "",
              table := (splitTableName tab.tableName).2.getD "",
              page := tab.currentPage, limit := 100,
              filter := filterOrUndefined tab.filter }, ?_, rfl, rfl⟩
    rw [fetchTableData]
    cases backendData { schema := (splitTableName tab.tableName).1.getD "",
                        table := (splitTableName tab.tableName).2.getD "",
                        page := tab.currentPage, limit := 100,
                        filter := filterOrUndefined tab.filter } <;>
      simp [networkCallsOf]
  · intro backendData connection tab
    set tab1 : TableDataTab :=
      { tab with filter := tab.filterInput, currentPage := 1 } with htab1
    refine ⟨{ schema := (splitTableName tab1.tableName).1.getD "",
              table := (splitTableName tab1.tableName).2.getD "",
              page := 1, limit := 100,
              filter := filterOrUndefined tab1.filter },
            (fetchTableData backendData (some connection) tab1).1, ?_, ?_, rfl,
            rfl, ?_⟩
    · rfl
    · show networkCallsOf (fetchTableData backendData (some connection) tab1).2 = _
      rw [fetchTableData]
      cases backendData { schema := (splitTableName tab1.tableName).1.getD "",
                          table := (splitTableName tab1.tableName).2.getD "",
                          page := tab1.currentPage, limit := 100,
                          filter := filterOrUndefined tab1.filter } <;>
        simp [networkCallsOf]
    · show (fetchTableData backendData (some connection) tab1).1.currentPage = 1
      rw [fetchTableData]
      cases backendData { schema := (splitTableName tab1.tableName).1.getD "",
                          table := (splitTableName tab1.tableName).2.getD "",
                          page := tab1.currentPage, limit := 100,
                          filter := filterOrUndefined tab1.filter } <;>
        simp [htab1]
  · intro backendData connection tab
    set tab1 : TableDataTab :=
      { tab with filter := "", filterInput := "", currentPage := 1 } with htab1
    refine ⟨{ schema := (splitTableName tab1.tableName).1.getD "",
              table := (splitTableName tab1.tableName).2.getD "",
              page := 1, limit := 100,
              filter := filterOrUndefined tab1.filter },
            (fetchTableData backendData (some connection) tab1).1, ?_, ?_, rfl,
            rfl, ?_, ?_⟩
    · rfl
    · show networkCallsOf (fetchTableData backendData (some connection) tab1).2 = _
      rw [fetchTableData]
      cases backendData { schema := (splitTableName tab1.tableName).1.getD "",
                          table := (splitTableName tab1.tableName).2.getD "",
                          page := tab1.currentPage, limit := 100,
                          filter := filterOrUndefined tab1.filter } <;>
        simp [networkCallsOf]
    · show filterOrUndefined tab1.filter = none
      simp [htab1, filterOrUndefined]
    · show (fetchTableData backendData (some connection) tab1).1.currentPage = 1
      rw [fetchTableData]
      cases backendData { schema := (splitTableName tab1.tableName).1.getD "",
                          table := (splitTableName tab1.tableName).2.getD "",
                          page := tab1.currentPage, limit := 100,
                          filter := filterOrUndefined tab1.filter } <;>
        simp [htab1]

/-- C8 witness: page-count characterization and fetch/filter behaviour at
concrete inputs (250 rows at page size 100 need at most 3 pages and more
than 2). -/
theorem c8_pagination_witness :
    (tableDataPageCount (some
        { id := "t1", tableName := "public.users",
          columns := [], currentPage := 4, loading := false,
          filterInput := "", filter := "",
          data := some { data := [], total := 250, page := 4,
                         limit := 100 } }) ≤ 3 ↔ (250 : Nat) ≤ 100 * 3) ∧
    (tableDataPageCount (some
        { id := "t1", tableName := "public.users",
          columns := [], currentPage := 4, loading := false,
          filterInput := "", filter := "",
          data := some { data := [], total := 250, page := 4,
                         limit := 100 } }) ≤ 2 ↔ (250 : Nat) ≤ 100 * 2) ∧
    (∃ args : GetTableDataArgs,
       networkCallsOf (fetchTableData
           (fun _ => Except.error "offline") (some { uuid := "u" })
           { id := "t1", tableName := "public.users",
             columns := [], currentPage := 4, loading := false,
             filterInput := "", filter := "", data := none }).2 =
         [NetworkCall.getTableDataCall args] ∧
       args.limit = 100 ∧ args.page = 4) := by
  refine ⟨?_, ?_, ?_⟩
  · exact c8_pagination.1
      { id := "t1", tableName := "public.users", columns := [],
        currentPage := 4, loading := false, filterInput := "", filter := "",
        data := some { data := [], total := 250, page := 4, limit := 100 } }
      { data := [], total := 250, page := 4, limit := 100 }
      rfl (by decide) 3
  · exact c8_pagination.1
      { id := "t1", tableName := "public.users", columns := [],
        currentPage := 4, loading := false, filterInput := "", filter := "",
        data := some { data := [], total := 250, page := 4, limit := 100 } }
      { data := [], total := 250, page := 4, limit := 100 }
      rfl (by decide) 2
  · exact c8_pagination.2.1 (fun _ => Except.error "offline")
      { uuid := "u" }
      { id := "t1", tableName := "public.users", columns := [],
        currentPage := 4, loading := false, filterInput := "",
        filter := "", data := none }

theorem csStep_preserves_not_connected (s : CSState) (e : CSEvent)
    (hs : s.status ≠ Status.connected)
    (hne : e ≠ CSEvent.connectResult Status.connected) :
    (csStep s e).1.status ≠ Status.connected ∧ (csStep s e).2 = false := by
  cases e with
  | tick =>
    refine ⟨hs, ?_⟩
    simp [csStep, tickIssuesHealthCheck]
    intro hc
    exact absurd hc hs
  | healthCheckFailed =>
    by_cases hm : s.mounted <;> simp [csStep, hm, hs]
  | connectStart isInitial =>
    by_cases hm : s.mounted
    · cases isInitial <;> simp [csStep, hm]
    · simp [csStep, hm, hs]
  | connectResult st =>
    have hst : st ≠ Status.connected := by
      intro h
      exact hne (by rw [h])
    by_cases hm : s.mounted <;> simp [csStep, hm, hs, hst]
  | connectFailed =>
    by_cases hm : s.mounted <;> simp [csStep, hm, hs]
  | unmount => simp [csStep, hs]

theorem csRun_zero_health_checks (es : List CSEvent) :
    ∀ s : CSState, s.status ≠ Status.connected →
      CSEvent.connectResult Status.connected ∉ es → (csRun s es).2 = 0 := by
  induction es with
  | nil => intro s _ _; rfl
  | cons e rest ih =>
    intro s hs hn
    have hne : e ≠ CSEvent.connectResult Status.connected := by
      intro h
      exact hn (h ▸ List.mem_cons_self e rest)
    have hn' : CSEvent.connectResult Status.connected ∉ rest := by
      intro h
      exact hn (List.mem_cons_of_mem e h)
    obtain ⟨h1, h2⟩ := csStep_preserves_not_connected s e hs hne
    simp [csRun, h2, ih (csStep s e).1 h1 hn']

/-- C4. The `ConnectionStatus` health-check timer has the fixed,
non-user-configurable period 30000 ms (a source literal); a tick issues a
health check only while the tracked status is `connected` (never while
`connecting` or `reconnecting`); a failed health check flips the status to
`disconnected`; and from any non-`connected` state, no health check is
issued by any event sequence that contains no successful connect
result. -/
theorem c4_health_check_timer :
    healthCheckIntervalMs = 30000 ∧
    (∀ s : CSState, tickIssuesHealthCheck s = true →
       s.status = Status.connected) ∧
    (∀ s : CSState, s.status = Status.connecting ∨
       s.status = Status.reconnecting → tickIssuesHealthCheck s = false) ∧
    (∀ s : CSState, s.mounted = true →
       (csStep s CSEvent.healthCheckFailed).1.status = Status.disconnected ∧
       (csStep s CSEvent.healthCheckFailed).2 = false) ∧
    (∀ (s : CSState) (es : List CSEvent), s.status ≠ Status.connected →
       CSEvent.connectResult Status.connected ∉ es → (csRun s es).2 = 0) := by
  refine ⟨rfl, ?_, ?_, ?_, fun s es => csRun_zero_health_checks es s⟩
  · intro s h
    have := (Bool.and_eq_true _ _).mp h
    exact eq_of_beq this.1
  · intro s h
    rcases h with h | h <;> simp [tickIssuesHealthCheck, h]
  · intro s hm
    exact ⟨by simp [csStep, hm], rfl⟩

/-- C4 witness: the ticking machine at concrete states — a tick while
`connecting` issues nothing, a health-check failure lands in
`disconnected`, and a disconnected entry never health-checks across a
reconnect attempt that fails. -/
theorem c4_health_check_timer_witness :
    tickIssuesHealthCheck { status := Status.connecting, mounted := true } =
      false ∧
    (csStep { status := Status.connected, mounted := true }
      CSEvent.healthCheckFailed).1.status = Status.disconnected ∧
    (csRun { status := Status.disconnected, mounted := true }
      [CSEvent.tick, CSEvent.connectStart false, CSEvent.tick,
       CSEvent.connectFailed, CSEvent.tick]).2 = 0 := by
  refine ⟨?_, ?_, ?_⟩
  · exact c4_health_check_timer.2.2.1 _ (Or.inl rfl)
  · exact (c4_health_check_timer.2.2.2.1 _ rfl).1
  · exact c4_health_check_timer.2.2.2.2 _ _ (by decide) (by decide)

/-- C10. Every `updates` object `RowEditSheet.handleSave` passes to
`onSave` contains no primary-key column and contains exactly those entries
of the edited values whose `JSON.stringify` image differs from the original
row's; when `hasChanges` reports no non-primary-key change, `handleSave`
returns without calling `onSave`. -/
theorem c10_row_edit_updates
    (row : Row) (editedValues : Row) (columns : List TableColumn) :
    (hasChanges (some row) editedValues columns = false →
       handleSave (some row) editedValues columns = none) ∧
    (∀ updates : Row,
       handleSave (some row) editedValues columns = some updates →
       (∀ kv ∈ updates, isPrimaryKeyName columns kv.1 = false) ∧
       (∀ kv : String × JsonValue,
          kv ∈ updates ↔ kv ∈ editedValues ∧
            isPrimaryKeyName columns kv.1 = false ∧
            jsonStringifyOpt (lookupRow row kv.1) ≠
              some (jsonStringify kv.2))) := by
  constructor
  · intro h
    simp [handleSave, h]
  · intro updates h
    by_cases hc : hasChanges (some row) editedValues columns
    · rw [handleSave, hc] at h
      simp only [Bool.not_true, Bool.false_eq_true, if_false,
        Option.some.injEq] at h
      subst h
      constructor
      · intro kv hkv
        have := (List.mem_filter.mp hkv).2
        rw [Bool.and_eq_true] at this
        have h1 := this.1
        revert h1
        cases isPrimaryKeyName columns kv.1 <;> simp
      · intro kv
        rw [List.mem_filter]
        constructor
        · intro ⟨hmem, hpred⟩
          rw [Bool.and_eq_true] at hpred
          refine ⟨hmem, ?_, ?_⟩
          · have h1 := hpred.1
            revert h1
            cases isPrimaryKeyName columns kv.1 <;> simp
          · have h2 := hpred.2
            intro heq
            rw [heq] at h2
            simp at h2
        · intro ⟨hmem, hpk, hne⟩
          refine ⟨hmem, ?_⟩
          rw [Bool.and_eq_true, hpk]
          refine ⟨rfl, ?_⟩
          simp only [Bool.not_eq_true']
          exact beq_eq_false_iff_ne.mpr hne
    · rw [handleSave] at h
      rw [Bool.not_eq_true] at hc
      rw [hc] at h
      simp at h

/-- C10 witness: with primary key `id` and a single changed non-key column
`name`, `handleSave` emits exactly that column; with no change it emits
nothing. -/
theorem c10_row_edit_updates_witness :
    isPrimaryKeyName
      [{ name := "id", colType := "integer", nullable := false,
         defaultValue := none, primary_key := true },
       { name := "name", colType := "text", nullable := true,
         defaultValue := none, primary_key := false }] "name" = false ∧
    (("name", JsonValue.str "b") ∈
        ([("name", JsonValue.str "b")] : Row) ↔
      ("name", JsonValue.str "b") ∈
          ([("id", JsonValue.num 1), ("name", JsonValue.str "b")] : Row) ∧
        isPrimaryKeyName
          [{ name := "id", colType := "integer", nullable := false,
             defaultValue := none, primary_key := true },
           { name := "name", colType := "text", nullable := true,
             defaultValue := none, primary_key := false }] "name" = false ∧
        jsonStringifyOpt (lookupRow
            [("id", JsonValue.num 1), ("name", JsonValue.str "a")] "name") ≠
          some (jsonStringify (JsonValue.str "b"))) ∧
    handleSave (some [("id", JsonValue.num 1), ("name", JsonValue.str "a")])
      [("id", JsonValue.num 1), ("name", JsonValue.str "a")]
      [{ name := "id", colType := "integer", nullable := false,
         defaultValue := none, primary_key := true },
       { name := "name", colType := "text", nullable := true,
         defaultValue := none, primary_key := false }] = none := by
  refine ⟨?_, ?_, ?_⟩
  · exact ((c10_row_edit_updates
      [("id", JsonValue.num 1), ("name", JsonValue.str "a")]
      [("id", JsonValue.num 1), ("name", JsonValue.str "b")]
      [{ name := "id", colType := "integer", nullable := false,
         defaultValue := none, primary_key := true },
       { name := "name", colType := "text", nullable := true,
         defaultValue := none, primary_key := false }]).2
      [("name", JsonValue.str "b")] rfl).1
      ("name", JsonValue.str "b") (List.mem_singleton_self _)
  · exact ((c10_row_edit_updates
      [("id", JsonValue.num 1), ("name", JsonValue.str "a")]
      [("id", JsonValue.num 1), ("name", JsonValue.str "b")]
      [{ name := "id", colType := "integer", nullable := false,
         defaultValue := none, primary_key := true },
       { name := "name", colType := "text", nullable := true,
         defaultValue := none, primary_key := false }]).2
      [("name", JsonValue.str "b")] rfl).2 ("name", JsonValue.str "b")
  · exact (c10_row_edit_updates
      [("id", JsonValue.num 1), ("name", JsonValue.str "a")]
      [("id", JsonValue.num 1), ("name", JsonValue.str "a")]
      [{ name := "id", colType := "integer", nullable := false,
         defaultValue := none, primary_key := true },
       { name := "name", colType := "text", nullable := true,
         defaultValue := none, primary_key := false }]).1 (by decide)
